import Mathlib

/-!
# backend-learning: controllers of a video-sharing backend

A shallow embedding of `src/utils/asyncHandler.js`, `src/controllers/user.controller.js`
and `src/controllers/playlist.controller.js`.

* The document store is a record of lists, one list per collection; the order of a list is
  the order in which the store scans the collection.
* A request handler is a function from the world (store and the trace of collaborator calls
  made so far) to a result or a thrown error, together with the world it leaves behind.
  What was written before a `throw` stays written, as in JavaScript.
* Collaborators whose code is not part of the sources (the token signer and verifier, the
  password hasher, the process environment, the mapper's cast of a string to an ObjectId)
  and the Unicode case mapping of the language are fields of `Env`.
* Identifiers are strings. Those that come from a verified token or from `req.user` are
  taken to be well-formed keys of the store; those of `req.params` are raw strings, which the
  mapper casts or refuses with `CastError`.
* Every handler is the function its controller passes to `asyncHandler`, wrapped by the
  function of `utils/asyncHandler.js`; how a module obtains that function (the playlist
  controller imports it by name, the utility exports it as default) is not modelled.
* Request fields are `undefined` or a string.
-/

namespace BackendLearning

/-! ## JavaScript values -/

/-- Document identifier (an ObjectId in its string form). -/
abbrev Id := String

/-- The JavaScript `WhiteSpace` and `LineTerminator` code points, which `trim` strips. -/
def isJsWhiteSpace (c : Char) : Bool :=
  c.toNat == 0x09 || c.toNat == 0x0A || c.toNat == 0x0B || c.toNat == 0x0C ||
  c.toNat == 0x0D || c.toNat == 0x20 || c.toNat == 0xA0 || c.toNat == 0x1680 ||
  (0x2000 ≤ c.toNat && c.toNat ≤ 0x200A) || c.toNat == 0x2028 || c.toNat == 0x2029 ||
  c.toNat == 0x202F || c.toNat == 0x205F || c.toNat == 0x3000 || c.toNat == 0xFEFF

/-- `String.prototype.trim`. -/
def trim (s : String) : String :=
  String.mk ((s.data.dropWhile isJsWhiteSpace).reverse.dropWhile isJsWhiteSpace).reverse

/-- Lower-casing of the letters `A` to `Z`. On a string of ASCII characters it is what
`String.prototype.toLowerCase` returns; it is used for sample data only. -/
def asciiToLowerCase (s : String) : String :=
  String.mk (s.data.map Char.toLower)

/-- Whether the string is 24 hexadecimal digits, the form of an ObjectId that every version
of the mapper casts; it is used for sample data only. -/
def isHexObjectId (s : String) : Bool :=
  s.data.length == 24 &&
  s.data.all (fun c =>
    (0x30 ≤ c.toNat && c.toNat ≤ 0x39) || (0x41 ≤ c.toNat && c.toNat ≤ 0x46) ||
    (0x61 ≤ c.toNat && c.toNat ≤ 0x66))

/-- Truthiness of a value that is `undefined` or a string: a non-empty string is truthy. -/
def truthy : Option String → Bool
  | some s => s != ""
  | none => false

/-- The operator `a || b` on values that are `undefined` or a string. -/
def jsOr (a b : Option String) : Option String :=
  if truthy a then a else b

/-- The test `field?.trim() === "" || field === undefined` of the field validations. -/
def blankOrUndefined : Option String → Bool
  | some s => trim s == ""
  | none => true

/-- The test `!field?.trim()`. -/
def notTrimmed : Option String → Bool
  | some s => trim s == ""
  | none => true

/-- An object with string-valued properties, in property order. -/
abbrev JsObject := List (String × String)

/-- Property read `obj.key`, `undefined` when the object has no such property. -/
def JsObject.get (obj : JsObject) (key : String) : Option String :=
  obj.lookup key

/-! ## Errors and responses -/

/-- A thrown JavaScript error. `statusCode` is present on `ApiError` only: the errors of the
language (`TypeError`, `ReferenceError`) and of the libraries carry none. -/
structure JsError where
  name : String
  statusCode : Option Nat
  message : String
deriving DecidableEq, Repr

/-- Modelled from the spec: `utils/ApiError.js` is not part of the sources; the error
taxonomy gives every operation-level error a status code and a message. -/
def ApiError (statusCode : Nat) (message : String) : JsError :=
  { name := "ApiError", statusCode := some statusCode, message := message }

/-- A `TypeError` raised by the language. -/
def TypeError (message : String) : JsError :=
  { name := "TypeError", statusCode := none, message := message }

/-- The `CastError` of the mapper for an identifier it cannot cast to an ObjectId; like the
errors of the language it has no `statusCode`. -/
def CastError (value : String) : JsError :=
  { name := "CastError", statusCode := none,
    message := "Cast to ObjectId failed for value " ++ value ++ " at path _id" }

/-- A `ReferenceError` raised by the language. -/
def ReferenceError (message : String) : JsError :=
  { name := "ReferenceError", statusCode := none, message := message }

/-- Modelled from the spec: `utils/ApiResponse.js` is not part of the sources; every
successful operation returns `{statusCode, data, message, success: true}`. -/
structure ApiResponse (δ : Type) where
  statusCode : Nat
  data : δ
  message : String
  success : Bool := true
deriving DecidableEq, Repr

/-- The body passed to `res.json`. -/
inductive Body (δ : Type) where
  | ok (r : ApiResponse δ)
  | failure (success : Bool) (message : String)
deriving DecidableEq, Repr

/-- What a handler has done to `res`: the status, the cookies set and cleared, the body. -/
structure Response (δ : Type) where
  status : Nat
  cookies : List (String × Option String) := []
  clearedCookies : List String := []
  body : Body δ
deriving DecidableEq, Repr

/-- The `success` flag of the body. -/
def Response.success {δ : Type} (r : Response δ) : Bool :=
  match r.body with
  | .ok a => a.success
  | .failure s _ => s

/-- The `data` of the body, when the body is an `ApiResponse`. -/
def Response.data? {δ : Type} (r : Response δ) : Option δ :=
  match r.body with
  | .ok a => some a.data
  | .failure _ _ => none

/-- The `message` of the body. -/
def Response.message {δ : Type} (r : Response δ) : String :=
  match r.body with
  | .ok a => a.message
  | .failure _ m => m

/-! ## The document store -/

/-- A document of the `users` collection. -/
structure User where
  _id : Id
  username : String
  email : String
  fullName : String
  password : String
  avatar : String
  coverImage : String
  refreshToken : Option String
  watchHistory : List Id
deriving DecidableEq, Repr

/-- A document of the playlist collection. -/
structure Playlist where
  _id : Id
  name : String
  description : String
  owner : Id
  video : List Id
deriving DecidableEq, Repr

/-- A document of the collection the channel pipeline names `subscription`. -/
structure Subscription where
  subscriber : Id
  channel : Id
deriving DecidableEq, Repr

/-- A document of the `videos` collection; `content` stands for the fields the controllers
never read. -/
structure Video where
  _id : Id
  owner : Id
  content : String
deriving DecidableEq, Repr

/-- The persisted data. -/
structure Store where
  users : List User
  playlists : List Playlist
  subscription : List Subscription
  videos : List Video
deriving DecidableEq, Repr

/-- A call to a collaborator. -/
inductive Effect where
  | userFindById (id : Option Id)
  | userFindOne (username email : Option String)
  | userSave (id : Id)
  | userFindByIdAndUpdate (id : Id)
  | userAggregate
  | playlistFindById (id : Id)
  | playlistFindOne
  | playlistCreate
  | playlistFindByIdAndUpdate (id : Id)
  | jwtVerify (token : String)
  | isPasswordCorrect (id : Id)
  | generateAccessToken (id : Id)
  | generateRefreshToken (id : Id)
deriving DecidableEq, Repr

/-- Whether the call writes to the store. -/
def Effect.isWrite : Effect → Bool
  | .userSave _ => true
  | .userFindByIdAndUpdate _ => true
  | .playlistCreate => true
  | .playlistFindByIdAndUpdate _ => true
  | _ => false

/-- Whether the call mints a credential. -/
def Effect.isMint : Effect → Bool
  | .generateAccessToken _ => true
  | .generateRefreshToken _ => true
  | _ => false

/-- The store and the collaborator calls made so far, oldest first. -/
structure World where
  store : Store
  trace : List Effect
deriving DecidableEq, Repr

/-! ## Handlers -/

/-- A computation that may throw and that reads and writes the world. -/
def Handler (α : Type) : Type := World → Except JsError α × World

namespace Handler

/-- Return a value. -/
def ret {α : Type} (a : α) : Handler α := fun w => (.ok a, w)

/-- Throw an error. -/
def raise {α : Type} (e : JsError) : Handler α := fun w => (.error e, w)

/-- Sequence two computations. -/
def andThen {α β : Type} (m : Handler α) (f : α → Handler β) : Handler β := fun w =>
  match m w with
  | (.ok a, w1) => f a w1
  | (.error e, w1) => (.error e, w1)

/-- The statement `try { m } catch (error) { h error }`. -/
def tryCatch {α : Type} (m : Handler α) (h : JsError → Handler α) : Handler α := fun w =>
  match m w with
  | (.ok a, w1) => (.ok a, w1)
  | (.error e, w1) => h e w1

/-- Record a collaborator call. -/
def emit (e : Effect) : Handler Unit := fun w => (.ok (), { w with trace := w.trace ++ [e] })

/-- Read the store. -/
def getStore : Handler Store := fun w => (.ok w.store, w)

/-- Replace the store. -/
def setStore (s : Store) : Handler Unit := fun w => (.ok (), { w with store := s })

end Handler

instance : Monad Handler where
  pure := Handler.ret
  bind := Handler.andThen

instance : MonadExcept JsError Handler where
  throw := Handler.raise
  tryCatch := Handler.tryCatch

/-- The world a handler leaves behind, with its response. -/
structure Outcome (δ : Type) where
  store : Store
  trace : List Effect
  res : Response δ
deriving DecidableEq, Repr

/-- The status `error.statusCode || 500`. -/
def statusOf (e : JsError) : Nat :=
  match e.statusCode with
  | some c => if c != 0 then c else 500
  | none => 500

/-- The wrapper `asyncHandler(fn)` of `utils/asyncHandler.js`: runs `fn` on a store and maps
a thrown error to `res.status(error.statusCode || 500).json({success: false, message})`. -/
def asyncHandler {δ : Type} (fn : Handler (Response δ)) (s : Store) : Outcome δ :=
  match fn { store := s, trace := [] } with
  | (.ok r, w) => { store := w.store, trace := w.trace, res := r }
  | (.error error, w) =>
    { store := w.store, trace := w.trace,
      res := { status := statusOf error, body := .failure false error.message } }

/-! ## Collaborators -/

/-- The claims of a verified token: `decodedToken?._id`. -/
structure JwtPayload where
  _id : Option Id
deriving DecidableEq, Repr

/-- The collaborators whose code is not part of the sources. -/
structure Env where
  /-- The variables of `process.env`. -/
  processEnv : String → Option String
  /-- The call `jwt.verify(token, secret)`: the claims, or the error it throws. -/
  jwtVerify : String → Option String → Except JsError JwtPayload
  /-- The method `user.generateAccessToken()` of the user model. -/
  generateAccessToken : User → String
  /-- The method `user.generateRefreshToken()` of the user model. -/
  generateRefreshToken : User → String
  /-- The method `user.isPasswordCorrect(password)` of the user model. -/
  isPasswordCorrect : User → String → Bool
  /-- The query `Playlist.findOne({$and: [{userId}, {name}]})`; what a filter on `userId`,
  which no playlist document has, matches is decided by the playlist model. -/
  findPlaylistByUserIdAndName : Store → Id → String → Option Playlist
  /-- The `_id` the store gives the next created document. -/
  newObjectId : Store → Id
  /-- The method `String.prototype.toLowerCase`, a Unicode case mapping that is not
  reimplemented here. -/
  toLowerCase : String → String
  /-- Whether the mapper can cast the string to an ObjectId; `findById` and
  `findByIdAndUpdate` throw `CastError` on a string it cannot cast. -/
  isObjectId : String → Bool

/-! ## Store operations -/

/-- The query `User.findById(id)`. -/
def Store.findUserById (s : Store) (id : Option Id) : Option User :=
  match id with
  | some i => s.users.find? (fun u => u._id == i)
  | none => none

/-- Apply `f` to the first element that satisfies `p`: the single-document update of the
store. -/
def updateFirst {α : Type} (p : α → Bool) (f : α → α) : List α → List α
  | [] => []
  | a :: l => if p a then f a :: l else a :: updateFirst p f l

/-- The write `user.save()` of a loaded user document. -/
def Store.saveUser (s : Store) (user : User) : Store :=
  { s with users := updateFirst (fun u => u._id == user._id) (fun _ => user) s.users }

/-- The write of `Playlist.findByIdAndUpdate(id, update)`. -/
def Store.updatePlaylistById (s : Store) (id : Id) (f : Playlist → Playlist) : Store :=
  { s with playlists := updateFirst (fun p => p._id == id) f s.playlists }

/-- The query `User.findOne({$or: [{username}, {email}]})`. -/
def Store.findUserByUsernameOrEmail (s : Store) (username email : Option String) :
    Option User :=
  s.users.find? (fun u => some u.username == username || some u.email == email)

/-- The query `Playlist.findById(id)`. -/
def Store.findPlaylistById (s : Store) (id : Id) : Option Playlist :=
  s.playlists.find? (fun p => p._id == id)

namespace UserModel

/-- The call `await User.findById(id)`. -/
def findById (id : Option Id) : Handler (Option User) := do
  Handler.emit (.userFindById id)
  let s ← Handler.getStore
  pure (s.findUserById id)

/-- The call `await user.save({validateBeforeSave: false})`. -/
def save (user : User) : Handler Unit := do
  Handler.emit (.userSave user._id)
  let s ← Handler.getStore
  Handler.setStore (s.saveUser user)

/-- The call `await User.findOne({$or: [{username}, {email}]})`. -/
def findOne (username email : Option String) : Handler (Option User) := do
  Handler.emit (.userFindOne username email)
  let s ← Handler.getStore
  pure (s.findUserByUsernameOrEmail username email)

end UserModel

/-! ## user.controller.js: the session operations -/

/-- The function `generateAccessAndRefreshTokens(userId)`: returns the object
`{accessToken, refreshToken}`; whatever is thrown inside becomes `ApiError(500)`. -/
def generateAccessAndRefreshTokens (env : Env) (userId : Id) : Handler JsObject :=
  tryCatch (do
    let user ← UserModel.findById (some userId)
    match user with
    | none => throw (TypeError "Cannot read properties of null (reading 'generateAccessToken')")
    | some user =>
      Handler.emit (.generateAccessToken user._id)
      let accessToken := env.generateAccessToken user
      Handler.emit (.generateRefreshToken user._id)
      let refreshToken := env.generateRefreshToken user
      let user := { user with refreshToken := some refreshToken }
      UserModel.save user
      pure [("accessToken", accessToken), ("refreshToken", refreshToken)])
  (fun _ => throw (ApiError 500 "Something went wrong while generating tokens"))

/-- The request fields `refreshAccessToken` reads. -/
structure RefreshReq where
  cookieRefreshToken : Option String
  bodyRefreshToken : Option String
deriving DecidableEq, Repr

/-- The data of the refresh response. -/
structure TokenData where
  accessToken : Option String
  refreshToken : Option String
deriving DecidableEq, Repr

/-- The credential a refresh request presents:
`req.cookies.refreshToken || req.body.refreshToken`. -/
def incomingRefreshToken (req : RefreshReq) : Option String :=
  jsOr req.cookieRefreshToken req.bodyRefreshToken

/-- The body of the handler `refreshAccessToken`. -/
def refreshAccessTokenFn (env : Env) (req : RefreshReq) : Handler (Response TokenData) := do
  let incomingRefreshToken := incomingRefreshToken req
  if !truthy incomingRefreshToken then
    throw (ApiError 401 "Unauthorized Request")
  Handler.emit (.jwtVerify (incomingRefreshToken.getD ""))
  let decodedToken ←
    match env.jwtVerify (incomingRefreshToken.getD "") (env.processEnv "REFRESH_TOKEN_EXPIRY") with
    | .ok p => pure p
    | .error e => throw e
  let user ← UserModel.findById decodedToken._id
  match user with
  | none => throw (ApiError 401 "Invalid refresh token")
  | some user =>
    if incomingRefreshToken != user.refreshToken then
      throw (ApiError 401 "Refresh token is expired or used")
    let tokens ← generateAccessAndRefreshTokens env user._id
    let newAccessToken := tokens.get "newAccessToken"
    let newRefreshToken := tokens.get "newRefreshToken"
    pure
      { status := 200
        cookies := [("accessToken", newAccessToken), ("refreshToken", newRefreshToken)]
        body := .ok
          { statusCode := 200
            data := { accessToken := newAccessToken, refreshToken := newRefreshToken }
            message := "Access Token Refreshed" } }

/-- The handler `refreshAccessToken`. -/
def refreshAccessToken (env : Env) (s : Store) (req : RefreshReq) : Outcome TokenData :=
  asyncHandler (refreshAccessTokenFn env req) s

/-- The secret `refreshAccessToken` hands to the verifier. -/
abbrev refreshSecret (env : Env) : Option String := env.processEnv "REFRESH_TOKEN_EXPIRY"

/-- The user a presented refresh credential names: the `_id` claim the verifier returns. -/
def refreshSubject (env : Env) (token : String) : Option Id :=
  match env.jwtVerify token (env.processEnv "REFRESH_TOKEN_EXPIRY") with
  | .ok p => p._id
  | .error _ => none

/-- The refresh credential persisted on the record of user `id`. -/
def persistedRefreshToken (s : Store) (id : Id) : Option String :=
  (s.findUserById (some id)).bind (fun u => u.refreshToken)

/-- The fields of `req.body` that `loginUser` reads. -/
structure LoginReq where
  email : Option String
  username : Option String
  password : Option String
deriving DecidableEq, Repr

/-- A user document after `.select("-refreshToken -password")`. -/
structure PublicUser where
  _id : Id
  username : String
  email : String
  fullName : String
  avatar : String
  coverImage : String
  watchHistory : List Id
deriving DecidableEq, Repr

/-- The projection `.select("-refreshToken -password")`. -/
def User.selectPublic (u : User) : PublicUser :=
  { _id := u._id, username := u.username, email := u.email, fullName := u.fullName,
    avatar := u.avatar, coverImage := u.coverImage, watchHistory := u.watchHistory }

/-- The data of the login response. -/
structure LoginData where
  user : Option PublicUser
  accessToken : Option String
  refreshToken : Option String
deriving DecidableEq, Repr

/-- The body of the handler `loginUser`. -/
def loginUserFn (env : Env) (req : LoginReq) : Handler (Response LoginData) := do
  let email := req.email
  let username := req.username
  let password := req.password
  if !truthy email && !truthy username then
    throw (ApiError 400 "username or email is required")
  if !truthy password then
    throw (ApiError 400 "password is required")
  let user ← UserModel.findOne username email
  match user with
  | none => throw (ApiError 404 "user does not exist")
  | some user =>
    Handler.emit (.isPasswordCorrect user._id)
    let isPasswordValid := env.isPasswordCorrect user (password.getD "")
    if !isPasswordValid then
      throw (ApiError 401 "Invalid user credentials")
    let tokens ← generateAccessAndRefreshTokens env user._id
    let accessToken := tokens.get "accessToken"
    let refreshToken := tokens.get "refreshToken"
    let loggedInUser ← UserModel.findById (some user._id)
    pure
      { status := 200
        cookies := [("accessToken", accessToken), ("refreshToken", refreshToken)]
        body := .ok
          { statusCode := 200
            data := { user := loggedInUser.map User.selectPublic, accessToken := accessToken,
                      refreshToken := refreshToken }
            message := "User logged in successfully" } }

/-- The handler `loginUser`. -/
def loginUser (env : Env) (s : Store) (req : LoginReq) : Outcome LoginData :=
  asyncHandler (loginUserFn env req) s

/-! ## user.controller.js: the view builders -/

/-- The names bound at the top level of `user.controller.js`: its imports and its
constants. -/
def userControllerScope : List String :=
  ["asyncHandler", "ApiError", "User", "uploadOnCloudinary", "ApiResponse", "jwt",
   "generateAccessAndRefreshTokens", "registerUser", "loginUser", "logoutUser",
   "refreshAccessToken", "changeCurrentPassword", "getCurrentUser", "updateAccountDetails",
   "updateUserAvatar", "updateUserCoverImage", "getUserChannelProfile", "getWatchHistory"]

/-- Evaluation of a free identifier of a module: a name the module does not bind is a
`ReferenceError`. -/
def resolve (scope : List String) (name : String) : Handler Unit :=
  if scope.contains name then pure () else throw (ReferenceError (name ++ " is not defined"))

/-- How a binding was declared. -/
inductive Declaration where
  | const
  | var
deriving DecidableEq, Repr

/-- The assignment `x = value` to a declared binding: a `const` binding refuses it with a
`TypeError`, after the right-hand side has been evaluated. -/
def assign {α : Type} (d : Declaration) (value : α) : Handler α :=
  match d with
  | .const => throw (TypeError "Assignment to constant variable.")
  | .var => pure value

/-- The request of `getUserChannelProfile`: `req.params.username` and `req.user?._id`. -/
structure ChannelReq where
  username : Option String
  user : Option Id
deriving DecidableEq, Repr

/-- The document the channel pipeline projects. -/
structure ChannelProfile where
  _id : Id
  fullName : String
  username : String
  avatar : String
  coverImage : String
  email : String
  subscribersCount : Nat
  channelsSubscribedToCount : Nat
  isSubscribed : Bool
deriving DecidableEq, Repr

/-- The stage `$lookup {from: "subscription", localField: "_id", foreignField: "channel"}`. -/
def lookupSubscribers (s : Store) (u : User) : List Subscription :=
  s.subscription.filter (fun e => e.channel == u._id)

/-- The stage `$lookup {from: "subscription", localField: "_id", foreignField: "subscriber"}`. -/
def lookupSubscribedTo (s : Store) (u : User) : List Subscription :=
  s.subscription.filter (fun e => e.subscriber == u._id)

/-- The aggregation of `getUserChannelProfile`: `$match` on the folded username, the two
`$lookup` stages, `$addFields` and `$project`. -/
def channelPipeline (env : Env) (s : Store) (username : String) (requester : Option Id) :
    List ChannelProfile :=
  (s.users.filter (fun u => u.username == env.toLowerCase username)).map (fun u =>
    { _id := u._id
      fullName := u.fullName
      username := u.username
      avatar := u.avatar
      coverImage := u.coverImage
      email := u.email
      subscribersCount := (lookupSubscribers s u).length
      channelsSubscribedToCount := (lookupSubscribedTo s u).length
      isSubscribed :=
        ((lookupSubscribers s u).map (fun e => some e.subscriber)).contains requester })

/-- The body of the handler `getUserChannelProfile`. -/
def getUserChannelProfileFn (env : Env) (req : ChannelReq) :
    Handler (Response ChannelProfile) := do
  let username := req.username
  if notTrimmed username then
    throw (ApiError 400 "username is missing")
  Handler.emit .userAggregate
  let s ← Handler.getStore
  let channel := channelPipeline env s (username.getD "") req.user
  match channel.head? with
  | none => throw (ApiError 404 "channel does not exists")
  | some first =>
    pure
      { status := 200
        body := .ok
          { statusCode := 200, data := first, message := "User channel fetched successfully" } }

/-- The handler `getUserChannelProfile`. -/
def getUserChannelProfile (env : Env) (s : Store) (req : ChannelReq) :
    Outcome ChannelProfile :=
  asyncHandler (getUserChannelProfileFn env req) s

/-- The owner sub-record: `$project {fullName: 1, username: 1, avatar: 1}`. -/
structure OwnerSummary where
  _id : Id
  fullName : String
  username : String
  avatar : String
deriving DecidableEq, Repr

/-- A video of the joined watch history: the video document with `owner` replaced by
`$first` of the looked-up owners, absent when there is none. -/
structure WatchedVideo where
  _id : Id
  content : String
  owner : Option OwnerSummary
deriving DecidableEq, Repr

/-- The inner pipeline of the `videos` lookup: `$lookup` of the owner in `users` with its
`$project`, then `$addFields {owner: {$first: "$owner"}}`. -/
def joinOwner (s : Store) (v : Video) : WatchedVideo :=
  { _id := v._id
    content := v.content
    owner :=
      ((s.users.filter (fun u => u._id == v.owner)).map (fun u =>
        ({ _id := u._id, fullName := u.fullName, username := u.username,
           avatar := u.avatar } : OwnerSummary))).head? }

/-- The stage `$lookup {from: "videos", localField: "watchHistory", foreignField: "_id"}`:
the documents of `videos` whose `_id` is an element of the list, as the store scans them. -/
def lookupVideos (s : Store) (watchHistory : List Id) : List Video :=
  s.videos.filter (fun v => watchHistory.contains v._id)

/-- The aggregation of `getWatchHistory`: per matched user, the joined `watchHistory`. -/
def watchHistoryPipeline (s : Store) (userId : Id) : List (List WatchedVideo) :=
  (s.users.filter (fun u => u._id == userId)).map (fun u =>
    (lookupVideos s u.watchHistory).map (joinOwner s))

/-- The request of `getWatchHistory`: `req.user._id`. -/
structure HistoryReq where
  user : Id
deriving DecidableEq, Repr

/-- The body of the handler `getWatchHistory`. Building the `$match` stage evaluates
`new mongoose.Types.ObjectId(req.user._id)` in the scope of `user.controller.js`. -/
def getWatchHistoryFn (req : HistoryReq) : Handler (Response (List WatchedVideo)) := do
  resolve userControllerScope "mongoose"
  Handler.emit .userAggregate
  let s ← Handler.getStore
  let user := watchHistoryPipeline s req.user
  match user.head? with
  | none => throw (TypeError "Cannot read properties of undefined (reading 'watchHistory')")
  | some first =>
    pure
      { status := 200
        body := .ok
          { statusCode := 200, data := first,
            message := "Watch history fetched successfully" } }

/-- The handler `getWatchHistory`. -/
def getWatchHistory (s : Store) (req : HistoryReq) : Outcome (List WatchedVideo) :=
  asyncHandler (getWatchHistoryFn req) s

/-! ## user.controller.js: logout -/

/-- What the object-document mapper does with `$set: {field: undefined}`. The sources fix
neither the mapper's version nor the schema options: one behaviour drops the key, so the
update sets nothing; the other stores `null`. -/
inductive UndefinedInSet where
  | omitted
  | storedAsNull
deriving DecidableEq, Repr

/-- The update `{$set: {refreshToken: undefined}}` on a user document. A stored `null` and
an absent field are both `none`: neither is identical to a presented string. -/
def setRefreshTokenUndefined (policy : UndefinedInSet) (u : User) : User :=
  match policy with
  | .omitted => u
  | .storedAsNull => { u with refreshToken := none }

/-- The write of `User.findByIdAndUpdate(id, update)`. -/
def Store.updateUserById (s : Store) (id : Id) (f : User → User) : Store :=
  { s with users := updateFirst (fun u => u._id == id) f s.users }

/-- The call `await User.findByIdAndUpdate(id, update, {new: true})`: the updated document,
or `null` when no document has the id. -/
def UserModel.findByIdAndUpdate (id : Id) (update : User → User) :
    Handler (Option User) := do
  Handler.emit (.userFindByIdAndUpdate id)
  let s ← Handler.getStore
  match s.findUserById (some id) with
  | none => pure none
  | some user =>
    Handler.setStore (s.updateUserById id update)
    pure (some (update user))

/-- The request of `logoutUser`: `req.user._id`. -/
structure LogoutReq where
  user : Id
deriving DecidableEq, Repr

/-- The body of the handler `logoutUser`; the data of its response is the empty object. -/
def logoutUserFn (policy : UndefinedInSet) (req : LogoutReq) : Handler (Response Unit) := do
  let _updated ← UserModel.findByIdAndUpdate req.user (setRefreshTokenUndefined policy)
  pure
    { status := 200
      clearedCookies := ["accessToken", "refreshToken"]
      body := .ok { statusCode := 200, data := (), message := "User logged Out" } }

/-- The handler `logoutUser`. -/
def logoutUser (policy : UndefinedInSet) (s : Store) (req : LogoutReq) : Outcome Unit :=
  asyncHandler (logoutUserFn policy req) s

/-! ## playlist.controller.js -/

namespace PlaylistModel

/-- The call `await Playlist.findById(id)` with the raw string of the request: the mapper
casts the string before it queries the store and throws `CastError` when it cannot. -/
def findById (env : Env) (id : String) : Handler (Option Playlist) := do
  if !env.isObjectId id then
    throw (CastError id)
  Handler.emit (.playlistFindById id)
  let s ← Handler.getStore
  pure (s.findPlaylistById id)

/-- The call `await Playlist.findOne({$and: [{userId}, {name}]})`. -/
def findOne (env : Env) (userId : Id) (name : String) : Handler (Option Playlist) := do
  Handler.emit .playlistFindOne
  let s ← Handler.getStore
  pure (env.findPlaylistByUserIdAndName s userId name)

/-- The call `await Playlist.create({name, description, owner})`. -/
def create (env : Env) (name description : String) (owner : Id) : Handler Playlist := do
  Handler.emit .playlistCreate
  let s ← Handler.getStore
  let playlist : Playlist :=
    { _id := env.newObjectId s, name := name, description := description, owner := owner,
      video := [] }
  Handler.setStore { s with playlists := s.playlists ++ [playlist] }
  pure playlist

/-- The call `await Playlist.findByIdAndUpdate(id, update, {new: true})` with the raw
string of the request: `CastError` when the mapper cannot cast the string, else the updated
document, or `null` when no document has the id. -/
def findByIdAndUpdate (env : Env) (id : String) (update : Playlist → Playlist) :
    Handler (Option Playlist) := do
  if !env.isObjectId id then
    throw (CastError id)
  Handler.emit (.playlistFindByIdAndUpdate id)
  let s ← Handler.getStore
  match s.findPlaylistById id with
  | none => pure none
  | some playlist =>
    Handler.setStore (s.updatePlaylistById id update)
    pure (some (update playlist))

end PlaylistModel

/-- The request of `createPlaylist`: `req.body.name`, `req.body.description`, `req.user`. -/
structure CreatePlaylistReq where
  name : Option String
  description : Option String
  user : Option Id
deriving DecidableEq, Repr

/-- The body of the handler `createPlaylist`. `name` and `description` are bound by
`const {name, description} = req.body`. -/
def createPlaylistFn (env : Env) (req : CreatePlaylistReq) : Handler (Response Playlist) := do
  let name := req.name
  let description := req.description
  if [name, description].any blankOrUndefined then
    throw (ApiError 400 "All fields are required")
  let userId ←
    match req.user with
    | some i => pure i
    | none => throw (TypeError "Cannot read properties of undefined (reading '_id')")
  let name ← assign Declaration.const (env.toLowerCase (name.getD ""))
  let existingPlaylist ← PlaylistModel.findOne env userId name
  if existingPlaylist.isSome then
    throw (ApiError 409 "Playlist with same name already exist for the user")
  let playlist ← PlaylistModel.create env name (description.getD "") userId
  pure
    { status := 200
      body := .ok
        { statusCode := 200, data := playlist, message := "Playlist created successfully" } }

/-- The handler `createPlaylist`. -/
def createPlaylist (env : Env) (s : Store) (req : CreatePlaylistReq) : Outcome Playlist :=
  asyncHandler (createPlaylistFn env req) s

/-- The request of `addVideoToPlaylist`: `req.params`. -/
structure PlaylistVideoReq where
  playlistId : Option String
  videoId : Option String
deriving DecidableEq, Repr

/-- The body of the handler `addVideoToPlaylist`; it answers with the document read before
the update. -/
def addVideoToPlaylistFn (env : Env) (req : PlaylistVideoReq) :
    Handler (Response Playlist) := do
  let playlistId := req.playlistId
  let videoId := req.videoId
  if [playlistId, videoId].any blankOrUndefined then
    throw (ApiError 400 "All fields are required")
  let playlist ← PlaylistModel.findById env (playlistId.getD "")
  match playlist with
  | none => throw (ApiError 404 "Playlist not found")
  | some playlist =>
    let _updatedPlaylist ← PlaylistModel.findByIdAndUpdate env (playlistId.getD "")
      (fun p => { p with video := p.video ++ [videoId.getD ""] })
    pure
      { status := 200
        body := .ok
          { statusCode := 200, data := playlist,
            message := "Video added successfully to playlist" } }

/-- The handler `addVideoToPlaylist`. -/
def addVideoToPlaylist (env : Env) (s : Store) (req : PlaylistVideoReq) :
    Outcome Playlist :=
  asyncHandler (addVideoToPlaylistFn env req) s

/-- The request of `updatePlaylist`: `req.params.playlistId` and `req.body`. -/
structure UpdatePlaylistReq where
  playlistId : Option String
  name : Option String
  description : Option String
deriving DecidableEq, Repr

/-- The body of the handler `updatePlaylist`; the data of its response is the `null` that
the update returned. -/
def updatePlaylistFn (env : Env) (req : UpdatePlaylistReq) :
    Handler (Response (Option Playlist)) := do
  let playlistId := req.playlistId
  let name := req.name
  let description := req.description
  if [playlistId, name, description].any blankOrUndefined then
    throw (ApiError 400 "All fields are required")
  let playlist ← PlaylistModel.findByIdAndUpdate env (playlistId.getD "")
    (fun p => { p with name := name.getD "", description := description.getD "" })
  if playlist.isSome then
    throw (ApiError 404 "Playlist Id not found")
  pure
    { status := 200
      body := .ok
        { statusCode := 200, data := playlist,
          message := "Playlist Details Updated Successfully" } }

/-- The handler `updatePlaylist`. -/
def updatePlaylist (env : Env) (s : Store) (req : UpdatePlaylistReq) :
    Outcome (Option Playlist) :=
  asyncHandler (updatePlaylistFn env req) s

/-! ## Sample data -/

/-- A verifier that accepts the tokens `r1` and `r2` of user `u1` and rejects every other
token the way `jsonwebtoken` does, with an error that has no `statusCode`; the signer issues
`r2` as refresh credential. -/
def sampleEnv : Env where
  processEnv := fun _ => some "10d"
  jwtVerify := fun token _ =>
    if token = "r1" ∨ token = "r2" then .ok { _id := some "u1" }
    else .error { name := "JsonWebTokenError", statusCode := none, message := "jwt malformed" }
  generateAccessToken := fun _ => "a2"
  generateRefreshToken := fun _ => "r2"
  isPasswordCorrect := fun u password => u.password == password
  findPlaylistByUserIdAndName := fun _ _ _ => none
  newObjectId := fun s => "p" ++ toString s.playlists.length
  toLowerCase := asciiToLowerCase
  isObjectId := isHexObjectId

/-- A user `u1` holding the refresh credential `credential`. -/
def sampleUser (credential : Option String) : User :=
  { _id := "u1", username := "alice", email := "alice@example.com", fullName := "Alice",
    password := "pw", avatar := "a.png", coverImage := "", refreshToken := credential,
    watchHistory := [] }

/-- A store whose only user is `u1`, holding the refresh credential `credential`. -/
def sampleStore (credential : Option String) : Store :=
  { users := [sampleUser credential], playlists := [], subscription := [], videos := [] }

/-- A refresh request presenting `token` in the cookie. -/
def cookieReq (token : String) : RefreshReq :=
  { cookieRefreshToken := some token, bodyRefreshToken := none }

/-- A playlist of user `u1` named `my list`. -/
def samplePlaylist : Playlist :=
  { _id := "650000000000000000000001", name := "my list", description := "d", owner := "u1",
    video := [] }

/-- A store with the user `u1` and the playlist `samplePlaylist`. -/
def samplePlaylistStore : Store :=
  { users := [sampleUser none], playlists := [samplePlaylist], subscription := [],
    videos := [] }

/-- A second user `u2`, `bob`. -/
def sampleBob : User :=
  { _id := "u2", username := "bob", email := "bob@example.com", fullName := "Bob",
    password := "pw", avatar := "b.png", coverImage := "", refreshToken := none,
    watchHistory := [] }

/-- A store in which `alice` (`u1`) subscribes to `bob` (`u2`) and nobody subscribes to
`alice`. -/
def sampleChannelStore : Store :=
  { users := [sampleUser none, sampleBob], playlists := [],
    subscription := [{ subscriber := "u1", channel := "u2" }], videos := [] }

/-- The collaborators of `sampleEnv` with a signer that issues `r1` again, as a signer does
whose token is a function of the user and of the second in which it signs. -/
def reissuingEnv : Env :=
  { sampleEnv with generateRefreshToken := fun _ => "r1" }

/-- The collaborators of `sampleEnv` at a time at which every token has expired. -/
def expiredEnv : Env :=
  { sampleEnv with
    jwtVerify := fun _ _ =>
      .error { name := "TokenExpiredError", statusCode := none, message := "jwt expired" } }

/-! ## Evaluation lemmas -/

section Lemmas

variable {α β : Type}

@[simp] theorem run_pure (a : α) (w : World) :
    (pure a : Handler α) w = (.ok a, w) := rfl

@[simp] theorem run_throw (e : JsError) (w : World) :
    (throw e : Handler α) w = (.error e, w) := rfl

@[simp] theorem run_bind (m : Handler α) (f : α → Handler β) (w : World) :
    (m >>= f) w =
      match m w with
      | (.ok a, w1) => f a w1
      | (.error e, w1) => (.error e, w1) := rfl

@[simp] theorem run_tryCatch (m : Handler α) (h : JsError → Handler α) (w : World) :
    (tryCatch m h) w =
      match m w with
      | (.ok a, w1) => (.ok a, w1)
      | (.error e, w1) => h e w1 := rfl

@[simp] theorem run_emit (e : Effect) (w : World) :
    Handler.emit e w = (.ok (), { w with trace := w.trace ++ [e] }) := rfl

@[simp] theorem run_getStore (w : World) :
    Handler.getStore w = (.ok w.store, w) := rfl

@[simp] theorem run_setStore (s : Store) (w : World) :
    Handler.setStore s w = (.ok (), { w with store := s }) := rfl

theorem truthy_eq_true {o : Option String} (h : truthy o = true) :
    ∃ t, o = some t ∧ t ≠ "" := by
  cases o with
  | none => simp [truthy] at h
  | some t => exact ⟨t, rfl, by simpa [truthy] using h⟩

theorem findUserById_id {s : Store} {i : Option Id} {u : User}
    (h : s.findUserById i = some u) : i = some u._id := by
  cases i with
  | none => simp [Store.findUserById] at h
  | some j =>
    simp only [Store.findUserById] at h
    have := List.find?_some h
    simp at this
    simp [this]

theorem findUserById_self {s : Store} {i : Option Id} {u : User}
    (h : s.findUserById i = some u) : s.findUserById (some u._id) = some u := by
  have := findUserById_id h
  rw [← this]; exact h

theorem refresh_absent (env : Env) (s : Store) (req : RefreshReq)
    (h : truthy (incomingRefreshToken req) = false) :
    refreshAccessToken env s req =
      { store := s, trace := [],
        res := { status := 401, body := .failure false "Unauthorized Request" } } := by
  simp [refreshAccessToken, asyncHandler, refreshAccessTokenFn, h, ApiError, statusOf]

theorem refresh_verify_error (env : Env) (s : Store) (req : RefreshReq) (t : String)
    (e : JsError) (ht : incomingRefreshToken req = some t) (hne : t ≠ "")
    (hv : env.jwtVerify t (refreshSecret env) = .error e) :
    refreshAccessToken env s req =
      { store := s, trace := [.jwtVerify t],
        res := { status := statusOf e, body := .failure false e.message } } := by
  simp [refreshAccessToken, asyncHandler, refreshAccessTokenFn, ht, hne, truthy, hv]

theorem refresh_no_user (env : Env) (s : Store) (req : RefreshReq) (t : String)
    (p : JwtPayload) (ht : incomingRefreshToken req = some t) (hne : t ≠ "")
    (hv : env.jwtVerify t (refreshSecret env) = .ok p)
    (hu : s.findUserById p._id = none) :
    refreshAccessToken env s req =
      { store := s, trace := [.jwtVerify t, .userFindById p._id],
        res := { status := 401, body := .failure false "Invalid refresh token" } } := by
  simp [refreshAccessToken, asyncHandler, refreshAccessTokenFn, ht, hne, truthy, hv,
    UserModel.findById, hu, ApiError, statusOf]

theorem refresh_mismatch (env : Env) (s : Store) (req : RefreshReq) (t : String)
    (p : JwtPayload) (u : User) (ht : incomingRefreshToken req = some t) (hne : t ≠ "")
    (hv : env.jwtVerify t (refreshSecret env) = .ok p)
    (hu : s.findUserById p._id = some u) (hm : u.refreshToken ≠ some t) :
    refreshAccessToken env s req =
      { store := s, trace := [.jwtVerify t, .userFindById p._id],
        res := { status := 401, body := .failure false "Refresh token is expired or used" } } := by
  have hm2 : ¬ (some t = u.refreshToken) := fun h => hm h.symm
  simp [refreshAccessToken, asyncHandler, refreshAccessTokenFn, ht, hne, truthy, hv,
    UserModel.findById, hu, hm2, ApiError, statusOf]

theorem refresh_success (env : Env) (s : Store) (req : RefreshReq) (t : String)
    (p : JwtPayload) (u : User) (ht : incomingRefreshToken req = some t) (hne : t ≠ "")
    (hv : env.jwtVerify t (refreshSecret env) = .ok p)
    (hu : s.findUserById p._id = some u) (hm : u.refreshToken = some t) :
    refreshAccessToken env s req =
      { store := s.saveUser { u with refreshToken := some (env.generateRefreshToken u) },
        trace := [.jwtVerify t, .userFindById p._id, .userFindById (some u._id),
          .generateAccessToken u._id, .generateRefreshToken u._id, .userSave u._id],
        res :=
          { status := 200
            cookies := [("accessToken", none), ("refreshToken", none)]
            body := .ok
              { statusCode := 200
                data := { accessToken := none, refreshToken := none }
                message := "Access Token Refreshed" } } } := by
  have hself := findUserById_self hu
  simp [refreshAccessToken, asyncHandler, refreshAccessTokenFn, ht, hne, truthy, hv,
    UserModel.findById, hu, hm, generateAccessAndRefreshTokens, hself, UserModel.save,
    JsObject.get, List.lookup]

theorem find_updateFirst {α : Type} (p : α → Bool) (f : α → α) (l : List α) (u : α)
    (h : l.find? p = some u) (hf : p (f u) = true) :
    (updateFirst p f l).find? p = some (f u) := by
  induction l with
  | nil => simp at h
  | cons a l ih =>
    cases hb : p a with
    | false =>
      rw [List.find?_cons, hb] at h
      simp only [updateFirst, hb, Bool.false_eq_true, ↓reduceIte, List.find?_cons]
      exact ih h
    | true =>
      rw [List.find?_cons, hb] at h
      have hau : a = u := Option.some.inj h
      subst hau
      simp only [updateFirst, hb, ↓reduceIte, List.find?_cons, hf]

theorem findUserById_saveUser (s : Store) (u v : User)
    (h : s.findUserById (some v._id) = some u) :
    (s.saveUser v).findUserById (some v._id) = some v :=
  find_updateFirst _ (fun _ => v) s.users u h (by simp)

theorem findPlaylistById_update (s : Store) (id : Id) (f : Playlist → Playlist)
    (p : Playlist) (h : s.findPlaylistById id = some p) (hf : (f p)._id = p._id) :
    (s.updatePlaylistById id f).findPlaylistById id = some (f p) := by
  have hp : p._id = id := by
    have := List.find?_some h
    simpa using this
  exact find_updateFirst _ f s.playlists p h (by simp [hf, hp])

theorem head_filter_eq_find {α : Type} (p : α → Bool) (l : List α) :
    (l.filter p).head? = l.find? p := by
  induction l with
  | nil => rfl
  | cons a l ih =>
    cases hb : p a with
    | false => simp only [List.filter_cons, hb, Bool.false_eq_true, ↓reduceIte,
        List.find?_cons, ih]
    | true => simp only [List.filter_cons, hb, ↓reduceIte, List.head?_cons, List.find?_cons]

theorem blankOrUndefined_some {n : String} (h : trim n ≠ "") :
    blankOrUndefined (some n) = false := by
  simp [blankOrUndefined, h]

theorem refresh_success_inv (env : Env) (s : Store) (req : RefreshReq)
    (hok : (refreshAccessToken env s req).res.success = true) :
    ∃ t p u, incomingRefreshToken req = some t ∧ t ≠ "" ∧
      env.jwtVerify t (refreshSecret env) = .ok p ∧
      s.findUserById p._id = some u ∧ u.refreshToken = some t := by
  by_cases htr : truthy (incomingRefreshToken req) = true
  · obtain ⟨t, ht, hne⟩ := truthy_eq_true htr
    cases hv : env.jwtVerify t (refreshSecret env) with
    | error e =>
      rw [refresh_verify_error env s req t e ht hne hv] at hok
      simp [Response.success] at hok
    | ok p =>
      cases hu : s.findUserById p._id with
      | none =>
        rw [refresh_no_user env s req t p ht hne hv hu] at hok
        simp [Response.success] at hok
      | some u =>
        by_cases hm : u.refreshToken = some t
        · exact ⟨t, p, u, ht, hne, hv, hu, hm⟩
        · rw [refresh_mismatch env s req t p u ht hne hv hu hm] at hok
          simp [Response.success] at hok
  · rw [refresh_absent env s req (by simpa using htr)] at hok
    simp [Response.success] at hok

theorem updateFirst_of_find_none {α : Type} (p : α → Bool) (f : α → α) (l : List α)
    (h : l.find? p = none) : updateFirst p f l = l := by
  induction l with
  | nil => rfl
  | cons a l ih =>
    cases hb : p a with
    | false =>
      rw [List.find?_cons, hb] at h
      simp only [updateFirst, hb, Bool.false_eq_true, ↓reduceIte, ih h]
    | true => rw [List.find?_cons, hb] at h; cases h

theorem updateFirst_idem {α : Type} (p : α → Bool) (f : α → α) (l : List α)
    (hp : ∀ a, p (f a) = p a) (hf : ∀ a, f (f a) = f a) :
    updateFirst p f (updateFirst p f l) = updateFirst p f l := by
  induction l with
  | nil => rfl
  | cons a l ih =>
    cases hb : p a with
    | false => simp only [updateFirst, hb, Bool.false_eq_true, ↓reduceIte, ih]
    | true =>
      have hfa : p (f a) = true := by rw [hp, hb]
      simp only [updateFirst, hb, ↓reduceIte, hfa, hf]

theorem updateFirst_id {α : Type} (p : α → Bool) (l : List α) :
    updateFirst p (fun a => a) l = l := by
  induction l with
  | nil => rfl
  | cons a l ih =>
    cases hb : p a with
    | false => simp only [updateFirst, hb, Bool.false_eq_true, ↓reduceIte, ih]
    | true => simp only [updateFirst, hb, ↓reduceIte]

theorem find_updateFirst_other (f : User → User) (l : List User) (i j : Id)
    (hij : i ≠ j) (hf : ∀ a, (f a)._id = a._id) :
    (updateFirst (fun u => u._id == j) f l).find? (fun u => u._id == i) =
      l.find? (fun u => u._id == i) := by
  induction l with
  | nil => rfl
  | cons a l ih =>
    cases hb : (a._id == j) with
    | false =>
      simp only [updateFirst, hb, Bool.false_eq_true, ↓reduceIte, List.find?_cons, ih]
    | true =>
      have haj : a._id = j := by simpa using hb
      have hai : (a._id == i) = false := by
        simp only [beq_eq_false_iff_ne, ne_eq, haj]
        exact fun h => hij h.symm
      simp only [updateFirst, hb, ↓reduceIte, List.find?_cons, hf, hai]

theorem setRefreshTokenUndefined_id (policy : UndefinedInSet) (u : User) :
    (setRefreshTokenUndefined policy u)._id = u._id := by
  cases policy <;> rfl

theorem setRefreshTokenUndefined_idem (policy : UndefinedInSet) (u : User) :
    setRefreshTokenUndefined policy (setRefreshTokenUndefined policy u) =
      setRefreshTokenUndefined policy u := by
  cases policy <;> rfl

theorem logout_eval (policy : UndefinedInSet) (s : Store) (req : LogoutReq) :
    logoutUser policy s req =
      { store := s.updateUserById req.user (setRefreshTokenUndefined policy),
        trace := [.userFindByIdAndUpdate req.user],
        res :=
          { status := 200
            clearedCookies := ["accessToken", "refreshToken"]
            body := .ok { statusCode := 200, data := (), message := "User logged Out" } } } := by
  cases hu : s.findUserById (some req.user) with
  | none =>
    have hsame : s.updateUserById req.user (setRefreshTokenUndefined policy) = s := by
      simp only [Store.updateUserById]
      rw [updateFirst_of_find_none _ _ _ hu]
    simp [logoutUser, asyncHandler, logoutUserFn, UserModel.findByIdAndUpdate, hu, hsame]
  | some u =>
    simp [logoutUser, asyncHandler, logoutUserFn, UserModel.findByIdAndUpdate, hu]

theorem findUserById_logout (policy : UndefinedInSet) (s : Store) (uid : Id) :
    (s.updateUserById uid (setRefreshTokenUndefined policy)).findUserById (some uid) =
      (s.findUserById (some uid)).map (setRefreshTokenUndefined policy) := by
  cases hu : s.findUserById (some uid) with
  | none =>
    simp only [Store.updateUserById, Store.findUserById, Option.map_none'] at hu ⊢
    rw [updateFirst_of_find_none _ _ _ hu]
    exact hu
  | some u =>
    have hid : u._id = uid := (Option.some.inj (findUserById_id hu)).symm
    exact find_updateFirst _ _ s.users u hu
      (by simp [setRefreshTokenUndefined_id, hid])

end Lemmas

/-! ## Refresh-credential rotation -/

/-- Counterexample to C1 as stated. User `u1` holds `r1` and presents it. With a signer that
issues `r1` again the refresh succeeds, leaves `r1` persisted, and the second refresh with
`r1` succeeds as well. With the signer that issues `r2` the first refresh rotates to `r2`,
and a second refresh with `r1`, made when the verifier no longer accepts `r1`, is answered
with 500. -/
theorem refresh_replay_counterexample :
    ((refreshAccessToken reissuingEnv (sampleStore (some "r1")) (cookieReq "r1")).res.success
        = true ∧
      persistedRefreshToken
        (refreshAccessToken reissuingEnv (sampleStore (some "r1")) (cookieReq "r1")).store "u1"
        = some "r1" ∧
      (refreshAccessToken reissuingEnv
        (refreshAccessToken reissuingEnv (sampleStore (some "r1")) (cookieReq "r1")).store
        (cookieReq "r1")).res.status = 200 ∧
      (refreshAccessToken reissuingEnv
        (refreshAccessToken reissuingEnv (sampleStore (some "r1")) (cookieReq "r1")).store
        (cookieReq "r1")).res.success = true) ∧
    ((refreshAccessToken sampleEnv (sampleStore (some "r1")) (cookieReq "r1")).res.success
        = true ∧
      persistedRefreshToken
        (refreshAccessToken sampleEnv (sampleStore (some "r1")) (cookieReq "r1")).store "u1"
        = some "r2" ∧
      (refreshAccessToken expiredEnv
        (refreshAccessToken sampleEnv (sampleStore (some "r1")) (cookieReq "r1")).store
        (cookieReq "r1")).res.status = 500) := by
  decide

/-- C1, amended: let a refresh presenting `R1`, made with the collaborators `env1`, succeed
and leave persisted, for the user `R1` names, a credential `R2` different from `R1`. Then a
later refresh presenting `R1`, made with the collaborators `env2` whose verifier still
accepts `R1` for that user, is answered with status 401 and `success: false`, and it leaves
the store as the first call left it, `R2` still persisted. -/
theorem refresh_replay_rejected_after_rotation (env1 env2 : Env) (s : Store)
    (req1 req2 : RefreshReq) (R1 R2 : String) (uid : Id)
    (hreq1 : incomingRefreshToken req1 = some R1)
    (hreq2 : incomingRefreshToken req2 = some R1)
    (hsub : refreshSubject env1 R1 = some uid)
    (hok : (refreshAccessToken env1 s req1).res.success = true)
    (hrot : persistedRefreshToken (refreshAccessToken env1 s req1).store uid = some R2)
    (hne : R2 ≠ R1)
    (hstill : refreshSubject env2 R1 = some uid) :
    (refreshAccessToken env2 (refreshAccessToken env1 s req1).store req2).res.status = 401 ∧
    (refreshAccessToken env2 (refreshAccessToken env1 s req1).store req2).res.success
      = false ∧
    (refreshAccessToken env2 (refreshAccessToken env1 s req1).store req2).store =
      (refreshAccessToken env1 s req1).store ∧
    persistedRefreshToken
      (refreshAccessToken env2 (refreshAccessToken env1 s req1).store req2).store uid
      = some R2 := by
  obtain ⟨t, p, u, ht, hne1, hv, hu, hm⟩ := refresh_success_inv env1 s req1 hok
  have htR : t = R1 := by rw [hreq1] at ht; exact (Option.some.inj ht).symm
  subst htR
  have hp : p._id = some uid := by simpa [refreshSubject, hv] using hsub
  have hid : uid = u._id := by
    have := findUserById_id hu
    rw [hp] at this; exact Option.some.inj this
  subst hid
  obtain ⟨p2, hv2, hp2⟩ : ∃ p2, env2.jwtVerify t (refreshSecret env2) = .ok p2 ∧
      p2._id = some u._id := by
    cases hq : env2.jwtVerify t (refreshSecret env2) with
    | error e => simp [refreshSubject, hq] at hstill
    | ok q => exact ⟨q, rfl, by simpa [refreshSubject, hq] using hstill⟩
  rw [refresh_success env1 s req1 t p u ht hne1 hv hu hm] at hrot ⊢
  have hnew := findUserById_saveUser s u
    { u with refreshToken := some (env1.generateRefreshToken u) } (findUserById_self hu)
  have hnew2 : (s.saveUser
      { u with refreshToken := some (env1.generateRefreshToken u) }).findUserById p2._id
        = some { u with refreshToken := some (env1.generateRefreshToken u) } := by
    rw [hp2]; exact hnew
  have hR2 : env1.generateRefreshToken u = R2 := by
    simp only [persistedRefreshToken] at hrot
    rw [hnew] at hrot
    simpa using hrot
  have hmis : ({ u with refreshToken := some (env1.generateRefreshToken u) } : User).refreshToken
      ≠ some t := by
    simp [hR2, hne]
  rw [refresh_mismatch env2 _ req2 t p2 _ hreq2 hne1 hv2 hnew2 hmis]
  refine ⟨rfl, rfl, rfl, ?_⟩
  simp only [persistedRefreshToken]
  rw [hnew]
  simp [hR2]

/-- Witness of C1, amended: user `u1` holds `r1`; the first refresh rotates it to `r2`, the
second refresh with `r1`, which still verifies, is refused. -/
theorem refresh_replay_rejected_after_rotation_witness :
    (refreshAccessToken sampleEnv
      (refreshAccessToken sampleEnv (sampleStore (some "r1")) (cookieReq "r1")).store
      (cookieReq "r1")).res.status = 401 ∧
    (refreshAccessToken sampleEnv
      (refreshAccessToken sampleEnv (sampleStore (some "r1")) (cookieReq "r1")).store
      (cookieReq "r1")).res.success = false ∧
    (refreshAccessToken sampleEnv
      (refreshAccessToken sampleEnv (sampleStore (some "r1")) (cookieReq "r1")).store
      (cookieReq "r1")).store =
      (refreshAccessToken sampleEnv (sampleStore (some "r1")) (cookieReq "r1")).store ∧
    persistedRefreshToken
      (refreshAccessToken sampleEnv
        (refreshAccessToken sampleEnv (sampleStore (some "r1")) (cookieReq "r1")).store
        (cookieReq "r1")).store "u1" = some "r2" :=
  refresh_replay_rejected_after_rotation sampleEnv sampleEnv (sampleStore (some "r1"))
    (cookieReq "r1") (cookieReq "r1") "r1" "r2" "u1" (by decide) (by decide) (by decide)
    (by decide) (by decide) (by decide) (by decide)

/-- C2: what a successful refresh answers. The handler reads the properties
`newAccessToken` and `newRefreshToken` of the object `{accessToken, refreshToken}` that
`generateAccessAndRefreshTokens` returns, so both tokens of the response body and both
cookies are `undefined`, while the pair was minted for the user and its refresh credential
was persisted on the user record. -/
theorem refresh_success_tokens_undefined (env : Env) (s : Store) (req : RefreshReq)
    (hok : (refreshAccessToken env s req).res.success = true) :
    (refreshAccessToken env s req).res.data? =
      some { accessToken := none, refreshToken := none } ∧
    (refreshAccessToken env s req).res.cookies =
      [("accessToken", none), ("refreshToken", none)] ∧
    ∃ u, u ∈ s.users ∧
      (generateAccessAndRefreshTokens env u._id { store := s, trace := [] }).1 =
        .ok [("accessToken", env.generateAccessToken u),
          ("refreshToken", env.generateRefreshToken u)] ∧
      persistedRefreshToken (refreshAccessToken env s req).store u._id =
        some (env.generateRefreshToken u) := by
  obtain ⟨t, p, u, ht, hne, hv, hu, hm⟩ := refresh_success_inv env s req hok
  have hself := findUserById_self hu
  rw [refresh_success env s req t p u ht hne hv hu hm]
  refine ⟨rfl, rfl, u, ?_, ?_, ?_⟩
  · simp only [Store.findUserById] at hself
    exact List.mem_of_find?_eq_some hself
  · simp [generateAccessAndRefreshTokens, UserModel.findById, hself, UserModel.save]
  · simp only [persistedRefreshToken]
    rw [findUserById_saveUser s u { u with refreshToken := some (env.generateRefreshToken u) }
      hself]
    rfl

/-- Witness of C2: user `u1` holds `r1` and presents it; the signer mints `a2` and `r2`,
`r2` is persisted, and the response carries neither. -/
theorem refresh_success_tokens_undefined_witness :
    (refreshAccessToken sampleEnv (sampleStore (some "r1")) (cookieReq "r1")).res.data? =
      some { accessToken := none, refreshToken := none } ∧
    (refreshAccessToken sampleEnv (sampleStore (some "r1")) (cookieReq "r1")).res.cookies =
      [("accessToken", none), ("refreshToken", none)] ∧
    persistedRefreshToken
      (refreshAccessToken sampleEnv (sampleStore (some "r1")) (cookieReq "r1")).store "u1" =
      some "r2" :=
  ⟨(refresh_success_tokens_undefined sampleEnv (sampleStore (some "r1")) (cookieReq "r1")
      (by decide)).1,
   (refresh_success_tokens_undefined sampleEnv (sampleStore (some "r1")) (cookieReq "r1")
      (by decide)).2.1,
   by decide⟩

/-- C3: a presented credential that is non-empty and on which the verifier throws. The
error of the verifier carries no `statusCode` and nothing catches it before the wrapper,
so the response has status 500 (not 401) with the verifier's message; the store is
untouched. -/
theorem refresh_verifier_failure_is_500 (env : Env) (s : Store) (req : RefreshReq)
    (t : String) (e : JsError)
    (ht : incomingRefreshToken req = some t) (hne : t ≠ "")
    (hv : env.jwtVerify t (env.processEnv "REFRESH_TOKEN_EXPIRY") = .error e)
    (he : e.statusCode = none) :
    (refreshAccessToken env s req).res.status = 500 ∧
    (refreshAccessToken env s req).res.success = false ∧
    (refreshAccessToken env s req).res.message = e.message ∧
    (refreshAccessToken env s req).store = s := by
  rw [refresh_verify_error env s req t e ht hne hv]
  simp [statusOf, he, Response.success, Response.message]

/-- Witness of C3: the token `garbage` fails verification and is answered with 500. -/
theorem refresh_verifier_failure_is_500_witness :
    (refreshAccessToken sampleEnv (sampleStore (some "r1")) (cookieReq "garbage")).res.status
      = 500 ∧
    (refreshAccessToken sampleEnv (sampleStore (some "r1")) (cookieReq "garbage")).res.success
      = false ∧
    (refreshAccessToken sampleEnv (sampleStore (some "r1")) (cookieReq "garbage")).res.message
      = "jwt malformed" ∧
    (refreshAccessToken sampleEnv (sampleStore (some "r1")) (cookieReq "garbage")).store
      = sampleStore (some "r1") :=
  refresh_verifier_failure_is_500 sampleEnv (sampleStore (some "r1")) (cookieReq "garbage")
    "garbage" { name := "JsonWebTokenError", statusCode := none, message := "jwt malformed" }
    (by decide) (by decide) rfl rfl

/-- C4: a stale credential is rejected without touching the store. Let user `uid` hold the
persisted refresh credential `R2` and let `R1 ≠ R2` be presented, `R1` naming no other
user. Then the response has `success: false`, with status 401 whenever `R1` is empty or
passes the verifier; the store is unchanged, `R2` is still persisted, and the handler made
no write and minted no credential. -/
theorem stale_refresh_rejected_store_unchanged (env : Env) (s : Store) (req : RefreshReq)
    (R1 R2 : String) (uid : Id) (u : User)
    (hreq : incomingRefreshToken req = some R1)
    (hu : s.findUserById (some uid) = some u)
    (hcred : u.refreshToken = some R2)
    (hne : R1 ≠ R2)
    (hsub : ∀ i, refreshSubject env R1 = some i → i = uid) :
    (refreshAccessToken env s req).res.success = false ∧
    ((R1 = "" ∨ ∃ p, env.jwtVerify R1 (env.processEnv "REFRESH_TOKEN_EXPIRY") = .ok p) →
      (refreshAccessToken env s req).res.status = 401) ∧
    (refreshAccessToken env s req).store = s ∧
    persistedRefreshToken (refreshAccessToken env s req).store uid = some R2 ∧
    (refreshAccessToken env s req).trace.any Effect.isWrite = false ∧
    (refreshAccessToken env s req).trace.any Effect.isMint = false := by
  have hpers : persistedRefreshToken s uid = some R2 := by
    simp [persistedRefreshToken, hu, hcred]
  by_cases hempty : R1 = ""
  · have htr : truthy (incomingRefreshToken req) = false := by simp [hreq, truthy, hempty]
    rw [refresh_absent env s req htr]
    exact ⟨rfl, fun _ => rfl, rfl, hpers, rfl, rfl⟩
  · cases hv : env.jwtVerify R1 (refreshSecret env) with
    | error e =>
      rw [refresh_verify_error env s req R1 e hreq hempty hv]
      refine ⟨rfl, ?_, rfl, hpers, rfl, rfl⟩
      rintro (h | ⟨p, hp⟩)
      · exact absurd h hempty
      · cases hp
    | ok p =>
      cases hf : s.findUserById p._id with
      | none =>
        rw [refresh_no_user env s req R1 p hreq hempty hv hf]
        exact ⟨rfl, fun _ => rfl, rfl, hpers, rfl, rfl⟩
      | some v =>
        have hpid := findUserById_id hf
        have hvu : v = u := by
          have h1 : v._id = uid := hsub v._id (by simp [refreshSubject, hv, hpid])
          rw [hpid, h1, hu] at hf
          exact (Option.some.inj hf).symm
        subst hvu
        have hmis : v.refreshToken ≠ some R1 := by
          rw [hcred]; intro h; exact hne (Option.some.inj h).symm
        rw [refresh_mismatch env s req R1 p v hreq hempty hv hf hmis]
        exact ⟨rfl, fun _ => rfl, rfl, hpers, rfl, rfl⟩

/-- Witness of C4: user `u1` holds `r2`; presenting the rotated-out `r1` is answered with
401 and changes nothing. -/
theorem stale_refresh_rejected_store_unchanged_witness :
    (refreshAccessToken sampleEnv (sampleStore (some "r2")) (cookieReq "r1")).res.success
      = false ∧
    (refreshAccessToken sampleEnv (sampleStore (some "r2")) (cookieReq "r1")).res.status
      = 401 ∧
    (refreshAccessToken sampleEnv (sampleStore (some "r2")) (cookieReq "r1")).store
      = sampleStore (some "r2") ∧
    persistedRefreshToken
      (refreshAccessToken sampleEnv (sampleStore (some "r2")) (cookieReq "r1")).store "u1"
      = some "r2" ∧
    (refreshAccessToken sampleEnv (sampleStore (some "r2")) (cookieReq "r1")).trace.any
      Effect.isWrite = false ∧
    (refreshAccessToken sampleEnv (sampleStore (some "r2")) (cookieReq "r1")).trace.any
      Effect.isMint = false :=
  have h := stale_refresh_rejected_store_unchanged sampleEnv (sampleStore (some "r2"))
    (cookieReq "r1") "r1" "r2" "u1" (sampleUser (some "r2")) (by decide) (by decide) rfl
    (by decide) (by intro i hi; exact (Option.some.inj hi).symm)
  ⟨h.1, h.2.1 (Or.inr ⟨{ _id := some "u1" }, rfl⟩), h.2.2.1, h.2.2.2.1, h.2.2.2.2.1,
    h.2.2.2.2.2⟩

/-! ## Playlists -/

/-- C5: a `createPlaylist` request whose name and description pass the validation. The
handler assigns to `name`, which `const {name, description} = req.body` declared, so it
throws before it queries the store: the response has status 500 (not 409, and never 200),
nothing is looked up and nothing is created, whether or not the owner already has a
playlist of that name. -/
theorem createPlaylist_valid_fields_is_500 (env : Env) (s : Store) (req : CreatePlaylistReq)
    (hn : blankOrUndefined req.name = false)
    (hd : blankOrUndefined req.description = false) :
    (createPlaylist env s req).res.status = 500 ∧
    (createPlaylist env s req).res.success = false ∧
    (createPlaylist env s req).store = s ∧
    (createPlaylist env s req).trace = [] := by
  cases hu : req.user <;>
    simp [createPlaylist, asyncHandler, createPlaylistFn, hn, hd, hu, assign, TypeError,
      statusOf, Response.success]

/-- Witness of C5: user `u1` owns the playlist `my list` and asks for a playlist
`my list` again; the answer is 500 and the store is as before. -/
theorem createPlaylist_valid_fields_is_500_witness :
    (createPlaylist sampleEnv samplePlaylistStore
      { name := some "my list", description := some "d2", user := some "u1" }).res.status
      = 500 ∧
    (createPlaylist sampleEnv samplePlaylistStore
      { name := some "my list", description := some "d2", user := some "u1" }).res.success
      = false ∧
    (createPlaylist sampleEnv samplePlaylistStore
      { name := some "my list", description := some "d2", user := some "u1" }).store
      = samplePlaylistStore ∧
    (createPlaylist sampleEnv samplePlaylistStore
      { name := some "my list", description := some "d2", user := some "u1" }).trace = [] :=
  createPlaylist_valid_fields_is_500 sampleEnv samplePlaylistStore
    { name := some "my list", description := some "d2", user := some "u1" }
    (by decide) (by decide)

/-- C6: a login request in which `email` and `username` are both absent or empty is
answered with status 400 before any collaborator is called: the trace is empty (no lookup,
no password comparison, no token issued) and the store is unchanged, whatever `password`
holds. -/
theorem login_without_identifier_is_400 (env : Env) (s : Store) (req : LoginReq)
    (he : truthy req.email = false) (hu : truthy req.username = false) :
    (loginUser env s req).res.status = 400 ∧
    (loginUser env s req).res.success = false ∧
    (loginUser env s req).res.message = "username or email is required" ∧
    (loginUser env s req).trace = [] ∧
    (loginUser env s req).store = s := by
  simp [loginUser, asyncHandler, loginUserFn, he, hu, ApiError, statusOf, Response.success,
    Response.message]

/-- Witness of C6: no email, an empty username and the right password of `u1`. -/
theorem login_without_identifier_is_400_witness :
    (loginUser sampleEnv (sampleStore none)
      { email := none, username := some "", password := some "pw" }).res.status = 400 ∧
    (loginUser sampleEnv (sampleStore none)
      { email := none, username := some "", password := some "pw" }).res.success = false ∧
    (loginUser sampleEnv (sampleStore none)
      { email := none, username := some "", password := some "pw" }).res.message
      = "username or email is required" ∧
    (loginUser sampleEnv (sampleStore none)
      { email := none, username := some "", password := some "pw" }).trace = [] ∧
    (loginUser sampleEnv (sampleStore none)
      { email := none, username := some "", password := some "pw" }).store
      = sampleStore none :=
  login_without_identifier_is_400 sampleEnv (sampleStore none)
    { email := none, username := some "", password := some "pw" } (by decide) (by decide)

/-- C7: `addVideoToPlaylist` with a non-blank `playlistId` that names no playlist and a
non-blank `videoId`. When the mapper cannot cast `playlistId` to an ObjectId,
`Playlist.findById` throws `CastError`, which nothing catches before the wrapper: the
response has status 500 (not 404). When it can, the response has status 404. In both cases
the store is unmutated and the handler made no write. -/
theorem addVideo_unknown_playlist_404_or_500 (env : Env) (s : Store) (req : PlaylistVideoReq)
    (playlistId videoId : String)
    (hp : req.playlistId = some playlistId) (hv : req.videoId = some videoId)
    (hpb : trim playlistId ≠ "") (hvb : trim videoId ≠ "")
    (hnone : s.findPlaylistById playlistId = none) :
    (env.isObjectId playlistId = false →
      (addVideoToPlaylist env s req).res.status = 500 ∧
      (addVideoToPlaylist env s req).res.success = false ∧
      (addVideoToPlaylist env s req).store = s ∧
      (addVideoToPlaylist env s req).trace = []) ∧
    (env.isObjectId playlistId = true →
      (addVideoToPlaylist env s req).res.status = 404 ∧
      (addVideoToPlaylist env s req).res.success = false ∧
      (addVideoToPlaylist env s req).res.message = "Playlist not found" ∧
      (addVideoToPlaylist env s req).store = s ∧
      (addVideoToPlaylist env s req).trace.any Effect.isWrite = false) := by
  constructor
  · intro hcast
    simp [addVideoToPlaylist, asyncHandler, addVideoToPlaylistFn, hp, hv,
      blankOrUndefined_some hpb, blankOrUndefined_some hvb, PlaylistModel.findById, hcast,
      CastError, statusOf, Response.success]
  · intro hcast
    simp [addVideoToPlaylist, asyncHandler, addVideoToPlaylistFn, hp, hv,
      blankOrUndefined_some hpb, blankOrUndefined_some hvb, PlaylistModel.findById, hcast,
      hnone, ApiError, statusOf, Response.success, Response.message, Effect.isWrite]

/-- Witness of C7: the store holds one playlist; the request for `p7`, which is no
ObjectId, is answered with 500, the request for an ObjectId that names no playlist with
404. -/
theorem addVideo_unknown_playlist_404_or_500_witness :
    ((addVideoToPlaylist sampleEnv samplePlaylistStore
      { playlistId := some "p7", videoId := some "v1" }).res.status = 500 ∧
     (addVideoToPlaylist sampleEnv samplePlaylistStore
      { playlistId := some "p7", videoId := some "v1" }).store = samplePlaylistStore) ∧
    ((addVideoToPlaylist sampleEnv samplePlaylistStore
      { playlistId := some "650000000000000000000007", videoId := some "v1" }).res.status
      = 404 ∧
     (addVideoToPlaylist sampleEnv samplePlaylistStore
      { playlistId := some "650000000000000000000007", videoId := some "v1" }).store
      = samplePlaylistStore) :=
  have hbad := (addVideo_unknown_playlist_404_or_500 sampleEnv samplePlaylistStore
    { playlistId := some "p7", videoId := some "v1" } "p7" "v1" rfl rfl (by decide)
    (by decide) (by decide)).1 (by decide)
  have hgood := (addVideo_unknown_playlist_404_or_500 sampleEnv samplePlaylistStore
    { playlistId := some "650000000000000000000007", videoId := some "v1" }
    "650000000000000000000007" "v1" rfl rfl (by decide) (by decide) (by decide)).2
    (by decide)
  ⟨⟨hbad.1, hbad.2.2.1⟩, ⟨hgood.1, hgood.2.2.2.1⟩⟩

/-- C8: `updatePlaylist` with non-blank `playlistId`, `name` and `description` tests
`if(playlist)` where its siblings test `if(!playlist)`. For a `playlistId` the mapper can
cast: when no playlist has the id it answers 200 with `null` as data and the store
unchanged; when a playlist has the id it writes the new name and description and then
answers 404. For a `playlistId` the mapper cannot cast it answers 500 and the store is
unchanged. -/
theorem updatePlaylist_found_is_404_missing_is_200 (env : Env) (s : Store)
    (req : UpdatePlaylistReq) (playlistId name description : String)
    (hp : req.playlistId = some playlistId) (hn : req.name = some name)
    (hd : req.description = some description)
    (hpb : trim playlistId ≠ "") (hnb : trim name ≠ "") (hdb : trim description ≠ "") :
    (env.isObjectId playlistId = true → s.findPlaylistById playlistId = none →
      (updatePlaylist env s req).res.status = 200 ∧
      (updatePlaylist env s req).res.success = true ∧
      (updatePlaylist env s req).res.data? = some none ∧
      (updatePlaylist env s req).store = s) ∧
    (env.isObjectId playlistId = true → ∀ p, s.findPlaylistById playlistId = some p →
      (updatePlaylist env s req).res.status = 404 ∧
      (updatePlaylist env s req).res.success = false ∧
      (updatePlaylist env s req).res.message = "Playlist Id not found" ∧
      (updatePlaylist env s req).store.findPlaylistById playlistId =
        some { p with name := name, description := description }) ∧
    (env.isObjectId playlistId = false →
      (updatePlaylist env s req).res.status = 500 ∧
      (updatePlaylist env s req).res.success = false ∧
      (updatePlaylist env s req).store = s) := by
  refine ⟨?_, ?_, ?_⟩
  · intro hcast hnone
    simp [updatePlaylist, asyncHandler, updatePlaylistFn, hp, hn, hd,
      blankOrUndefined_some hpb, blankOrUndefined_some hnb, blankOrUndefined_some hdb,
      PlaylistModel.findByIdAndUpdate, hcast, hnone, Response.success, Response.data?]
  · intro hcast p hsome
    have hupd := findPlaylistById_update s playlistId
      (fun q => { q with name := name, description := description }) p hsome rfl
    simp [updatePlaylist, asyncHandler, updatePlaylistFn, hp, hn, hd,
      blankOrUndefined_some hpb, blankOrUndefined_some hnb, blankOrUndefined_some hdb,
      PlaylistModel.findByIdAndUpdate, hcast, hsome, ApiError, statusOf, Response.success,
      Response.message, hupd]
  · intro hcast
    simp [updatePlaylist, asyncHandler, updatePlaylistFn, hp, hn, hd,
      blankOrUndefined_some hpb, blankOrUndefined_some hnb, blankOrUndefined_some hdb,
      PlaylistModel.findByIdAndUpdate, hcast, CastError, statusOf, Response.success]

/-- Witness of C8: renaming the existing playlist is answered with 404 although the new
name is stored, and renaming a playlist that does not exist is answered with 200 and
`null`. -/
theorem updatePlaylist_found_is_404_missing_is_200_witness :
    ((updatePlaylist sampleEnv samplePlaylistStore
      { playlistId := some "650000000000000000000001", name := some "n",
        description := some "e" }).res.status = 404 ∧
     (updatePlaylist sampleEnv samplePlaylistStore
      { playlistId := some "650000000000000000000001", name := some "n",
        description := some "e" }).store.findPlaylistById "650000000000000000000001"
      = some { samplePlaylist with name := "n", description := "e" }) ∧
    ((updatePlaylist sampleEnv samplePlaylistStore
      { playlistId := some "650000000000000000000007", name := some "n",
        description := some "e" }).res.status = 200 ∧
     (updatePlaylist sampleEnv samplePlaylistStore
      { playlistId := some "650000000000000000000007", name := some "n",
        description := some "e" }).res.data? = some none) :=
  have hfound := (updatePlaylist_found_is_404_missing_is_200 sampleEnv samplePlaylistStore
    { playlistId := some "650000000000000000000001", name := some "n",
      description := some "e" } "650000000000000000000001" "n" "e"
    rfl rfl rfl (by decide) (by decide) (by decide)).2.1 (by decide) samplePlaylist
    (by decide)
  have hmissing := (updatePlaylist_found_is_404_missing_is_200 sampleEnv samplePlaylistStore
    { playlistId := some "650000000000000000000007", name := some "n",
      description := some "e" } "650000000000000000000007" "n" "e"
    rfl rfl rfl (by decide) (by decide) (by decide)).1 (by decide) (by decide)
  ⟨⟨hfound.1, hfound.2.2.2⟩, ⟨hmissing.1, hmissing.2.2.1⟩⟩

/-! ## View builders -/

/-- Counterexample to C9 as stated: nobody subscribes to `alice`, who subscribes to `bob`;
her profile, requested by `bob`, has `subscribersCount = 0` and `isSubscribed = false`
but `channelsSubscribedToCount = 1`. -/
theorem channelProfile_subscribedTo_count_counterexample :
    (sampleChannelStore.subscription.all (fun e => e.channel != "u1")) = true ∧
    (getUserChannelProfile sampleEnv sampleChannelStore
      { username := some "Alice", user := some "u2" }).res.status = 200 ∧
    ((getUserChannelProfile sampleEnv sampleChannelStore
      { username := some "Alice", user := some "u2" }).res.data?.map
        (fun c => (c._id, c.subscribersCount, c.channelsSubscribedToCount, c.isSubscribed)))
      = some ("u1", 0, 1, false) := by
  decide

/-- C9, amended: let `U` be non-blank and let `u` be the first user whose username is what
`toLowerCase` returns for `U`, with no subscription naming `u` as channel. Then
`getUserChannelProfile` answers 200 with the profile of `u` in which
`subscribersCount = 0` and `isSubscribed = false`, for every requesting user;
`channelsSubscribedToCount` is the number of subscriptions whose subscriber is `u`. -/
theorem channelProfile_without_subscribers (env : Env) (s : Store) (req : ChannelReq)
    (U : String) (u : User)
    (hU : req.username = some U) (hb : trim U ≠ "")
    (hu : s.users.find? (fun x => x.username == env.toLowerCase U) = some u)
    (hnosub : ∀ e ∈ s.subscription, e.channel ≠ u._id) :
    (getUserChannelProfile env s req).res.status = 200 ∧
    (getUserChannelProfile env s req).res.success = true ∧
    (getUserChannelProfile env s req).store = s ∧
    (getUserChannelProfile env s req).res.data? =
      some { _id := u._id, fullName := u.fullName, username := u.username,
             avatar := u.avatar, coverImage := u.coverImage, email := u.email,
             subscribersCount := 0,
             channelsSubscribedToCount :=
               s.subscription.countP (fun e => e.subscriber == u._id),
             isSubscribed := false } := by
  have hsubs : lookupSubscribers s u = [] := by
    simp only [lookupSubscribers, List.filter_eq_nil_iff]
    intro e he
    simpa using hnosub e he
  have hhead : (channelPipeline env s U req.user).head? =
      some { _id := u._id, fullName := u.fullName, username := u.username,
             avatar := u.avatar, coverImage := u.coverImage, email := u.email,
             subscribersCount := 0,
             channelsSubscribedToCount :=
               s.subscription.countP (fun e => e.subscriber == u._id),
             isSubscribed := false } := by
    rw [channelPipeline, List.head?_map, head_filter_eq_find, hu]
    simp only [Option.map_some', hsubs, lookupSubscribedTo, List.countP_eq_length_filter]
    simp
  simp [getUserChannelProfile, asyncHandler, getUserChannelProfileFn, hU, notTrimmed, hb,
    hhead, Response.success, Response.data?]

/-- Witness of C9, amended: the profile of `alice`, requested by `bob`. -/
theorem channelProfile_without_subscribers_witness :
    (getUserChannelProfile sampleEnv sampleChannelStore
      { username := some "Alice", user := some "u2" }).res.status = 200 ∧
    (getUserChannelProfile sampleEnv sampleChannelStore
      { username := some "Alice", user := some "u2" }).res.data? =
      some { _id := "u1", fullName := "Alice", username := "alice", avatar := "a.png",
             coverImage := "", email := "alice@example.com", subscribersCount := 0,
             channelsSubscribedToCount := 1, isSubscribed := false } :=
  have h := channelProfile_without_subscribers sampleEnv sampleChannelStore
    { username := some "Alice", user := some "u2" } "Alice" (sampleUser none) rfl
    (by decide) (by decide) (by decide)
  ⟨h.1, h.2.2.2⟩

/-- C10: `getWatchHistory` builds its `$match` stage with
`new mongoose.Types.ObjectId(req.user._id)` in a module that binds no `mongoose`. For every
store and every request the evaluation throws `ReferenceError` before `User.aggregate` is
called: the response has status 500 and `success: false`, it carries no watch history, and
the store is not read. -/
theorem getWatchHistory_always_500 (s : Store) (req : HistoryReq) :
    (getWatchHistory s req).res.status = 500 ∧
    (getWatchHistory s req).res.success = false ∧
    (getWatchHistory s req).res.message = "mongoose is not defined" ∧
    (getWatchHistory s req).res.data? = none ∧
    (getWatchHistory s req).trace = [] ∧
    (getWatchHistory s req).store = s := by
  have hscope : ¬ ("mongoose" ∈ userControllerScope) := by decide
  simp [getWatchHistory, asyncHandler, getWatchHistoryFn, resolve, hscope, ReferenceError,
    statusOf, Response.success, Response.message, Response.data?]

/-! ## Logout -/

/-- C11: what `logoutUser` does for user `uid`, and what a refresh does after it. The
handler answers 200; applying it twice leaves the store that applying it once leaves;
the record of every other user is unchanged. Whether the persisted refresh credential is
cleared depends on what the mapper does with `$set: {refreshToken: undefined}`: when it
stores `null` the credential is cleared and a later refresh with a credential that the
verifier accepts for `uid` is answered with 401; when it drops the key the store is left
as it was, the credential included. In both cases a later refresh with a non-empty
credential on which the verifier throws is answered with 500, not 401. -/
theorem logout_idempotent_refresh_after (policy : UndefinedInSet) (env : Env) (s : Store)
    (uid : Id) :
    (logoutUser policy s { user := uid }).res.status = 200 ∧
    (logoutUser policy (logoutUser policy s { user := uid }).store { user := uid }).store =
      (logoutUser policy s { user := uid }).store ∧
    (∀ i, i ≠ uid →
      (logoutUser policy s { user := uid }).store.findUserById (some i) =
        s.findUserById (some i)) ∧
    (policy = .storedAsNull →
      persistedRefreshToken (logoutUser policy s { user := uid }).store uid = none) ∧
    (policy = .storedAsNull → ∀ req t p, incomingRefreshToken req = some t →
      env.jwtVerify t (env.processEnv "REFRESH_TOKEN_EXPIRY") = .ok p → p._id = some uid →
      (refreshAccessToken env (logoutUser policy s { user := uid }).store req).res.status
        = 401) ∧
    (policy = .omitted → (logoutUser policy s { user := uid }).store = s) ∧
    (∀ req t e, incomingRefreshToken req = some t → t ≠ "" →
      env.jwtVerify t (env.processEnv "REFRESH_TOKEN_EXPIRY") = .error e →
      e.statusCode = none →
      (refreshAccessToken env (logoutUser policy s { user := uid }).store req).res.status
        = 500) := by
  simp only [logout_eval]
  refine ⟨trivial, ?_, ?_, ?_, ?_, ?_, ?_⟩
  · simp only [Store.updateUserById]
    rw [updateFirst_idem _ _ _ (by intro a; simp [setRefreshTokenUndefined_id])
      (setRefreshTokenUndefined_idem policy)]
  · intro i hi
    exact find_updateFirst_other _ s.users i uid hi (setRefreshTokenUndefined_id policy)
  · intro hpol
    subst hpol
    simp only [persistedRefreshToken, findUserById_logout]
    cases s.findUserById (some uid) <;> rfl
  · intro hpol req t p ht hv hp
    subst hpol
    by_cases hempty : t = ""
    · rw [refresh_absent env _ req (by simp [ht, truthy, hempty])]
    · have hfind := findUserById_logout .storedAsNull s uid
      rw [← hp] at hfind
      cases hu : s.findUserById p._id with
      | none =>
        rw [hu] at hfind
        rw [refresh_no_user env _ req t p ht hempty hv hfind]
      | some u =>
        rw [hu] at hfind
        rw [refresh_mismatch env _ req t p _ ht hempty hv hfind
          (by simp [setRefreshTokenUndefined])]
  · intro hpol
    subst hpol
    obtain ⟨us, ps, ss, vs⟩ := s
    have hid : setRefreshTokenUndefined .omitted = fun a => a := rfl
    simp only [Store.updateUserById]
    rw [hid, updateFirst_id]
  · intro req t e ht hne hv he
    rw [refresh_verify_error env _ req t e ht hne hv]
    simp [statusOf, he]

/-- Witness of C11: user `u1` holds `r1` and logs out. With the key dropped, `r1` is still
persisted and the refresh presenting `r1` succeeds; with `null` stored, the credential is
gone and presenting `r1` is answered with 401; in both cases presenting `garbage` is
answered with 500. -/
theorem logout_idempotent_refresh_after_witness :
    (logoutUser .omitted (sampleStore (some "r1")) { user := "u1" }).store
      = sampleStore (some "r1") ∧
    (refreshAccessToken sampleEnv
      (logoutUser .omitted (sampleStore (some "r1")) { user := "u1" }).store
      (cookieReq "r1")).res.success = true ∧
    persistedRefreshToken
      (logoutUser .storedAsNull (sampleStore (some "r1")) { user := "u1" }).store "u1"
      = none ∧
    (refreshAccessToken sampleEnv
      (logoutUser .storedAsNull (sampleStore (some "r1")) { user := "u1" }).store
      (cookieReq "r1")).res.status = 401 ∧
    (refreshAccessToken sampleEnv
      (logoutUser .storedAsNull (sampleStore (some "r1")) { user := "u1" }).store
      (cookieReq "garbage")).res.status = 500 ∧
    (refreshAccessToken sampleEnv
      (logoutUser .omitted (sampleStore (some "r1")) { user := "u1" }).store
      (cookieReq "garbage")).res.status = 500 :=
  have hnull := logout_idempotent_refresh_after .storedAsNull sampleEnv
    (sampleStore (some "r1")) "u1"
  have hdrop := logout_idempotent_refresh_after .omitted sampleEnv
    (sampleStore (some "r1")) "u1"
  ⟨hdrop.2.2.2.2.2.1 rfl,
   by decide,
   hnull.2.2.2.1 rfl,
   hnull.2.2.2.2.1 rfl (cookieReq "r1") "r1" { _id := some "u1" } (by decide) rfl rfl,
   hnull.2.2.2.2.2.2 (cookieReq "garbage") "garbage"
     { name := "JsonWebTokenError", statusCode := none, message := "jwt malformed" }
     (by decide) (by decide) rfl rfl,
   hdrop.2.2.2.2.2.2 (cookieReq "garbage") "garbage"
     { name := "JsonWebTokenError", statusCode := none, message := "jwt malformed" }
     (by decide) (by decide) rfl rfl⟩

end BackendLearning
